import Mathlib

/-!
Shallow embedding of the hamster launcher's environment-detection and
adaptation logic (`hamster-adaptive.py`, with the status poller also present
in `hamster-gui.py`).

Python strings are modelled as `List Char` (`Str`); every string operation
the source uses (`in`, `strip`, `split`, `lower`, `int`) is embedded as a
structurally recursive Lean function over `List Char`.  External probes
(file reads, subprocess calls, environment variables) are modelled as
explicit inputs, with `Except Unit α` for calls that may raise: `.error ()`
is a raised exception, `.ok v` a normal return.
-/

/-- Python strings, modelled as lists of characters. -/
abbrev Str := List Char

/-- Outcome of an external probe (file read / subprocess call):
`.error ()` models a raised exception. -/
abbrev Probe (α : Type) := Except Unit α

/-- Does `hay` begin with `needle`?  Helper for substring search. -/
def listBeginsWith : Str → Str → Bool
  | _, [] => true
  | [], _ :: _ => false
  | c :: cs, d :: ds => c == d && listBeginsWith cs ds

/-- Python's `needle in hay` substring test. -/
def strContains (hay needle : Str) : Bool :=
  match hay with
  | [] => listBeginsWith [] needle
  | _ :: rest => listBeginsWith hay needle || strContains rest needle

/-- Python's `s.strip()`: drop whitespace from both ends. -/
def pyStrip (s : Str) : Str :=
  ((s.dropWhile Char.isWhitespace).reverse.dropWhile Char.isWhitespace).reverse

/-- Split at every character satisfying `p`, keeping empty chunks
(the behaviour of Python's `s.split(sep)` for a one-character `sep`). -/
def splitOnPred (p : Char → Bool) : Str → List Str
  | [] => [[]]
  | c :: rest =>
    let r := splitOnPred p rest
    if p c then [] :: r else (c :: r.headD []) :: r.tail

/-- Python's `s.split(sep)` for a single-character separator. -/
def splitOnChar (sep : Char) (s : Str) : List Str :=
  splitOnPred (fun c => c == sep) s

/-- Python's `s.split()` (no argument): split on whitespace runs,
discarding empty chunks. -/
def pySplitWs (s : Str) : List Str :=
  (splitOnPred Char.isWhitespace s).filter (fun t => t ≠ [])

/-- Parse an unsigned decimal numeral; `none` on empty or non-digit input. -/
def digitsToNat? (s : Str) : Option Nat :=
  match s with
  | [] => none
  | cs =>
    if cs.all Char.isDigit then
      some (cs.foldl (fun n c => 10 * n + (c.toNat - 48)) 0)
    else none

/-- Python's `int(s)`: optional sign, decimal digits, surrounding
whitespace ignored; raising `ValueError` is modelled as `none`. -/
def pyInt? (s : Str) : Option Int :=
  match pyStrip s with
  | '-' :: rest => (digitsToNat? rest).map (fun n => -(n : Int))
  | '+' :: rest => (digitsToNat? rest).map (fun n => (n : Int))
  | t => (digitsToNat? t).map (fun n => (n : Int))

/-- Python's `s.lower()`. -/
def toLowerStr (s : Str) : Str := s.map Char.toLower

/-- Python's `a or b` on two optional environment-variable values:
`None` and the empty string are falsy. -/
def pyOrStr (a b : Option Str) : Option Str :=
  match a with
  | some s => if s = [] then b else some s
  | none => b

/-! ## Environment detection (`EnvironmentDetector.detect_environment`) -/

/-- The process-state inputs read by `detect_environment`. -/
structure EnvInputs where
  /-- Content of `/proc/cpuinfo`; `.error ()` if `open` raised. -/
  cpuinfo : Probe Str
  /-- `os.environ.get('DESKTOP_SESSION')`. -/
  desktopSession : Option Str
  /-- `os.environ.get('XDG_CURRENT_DESKTOP')`. -/
  xdgCurrentDesktop : Option Str
  /-- Content of `/proc/device-tree/model`; `.error ()` if `open` raised. -/
  deviceTreeModel : Probe Str
  /-- `os.path.exists('/run/systemd/system')`. -/
  systemdPathExists : Bool

/-- The `env` dictionary built by `detect_environment`. -/
structure Env where
  type : Str
  is_pi : Bool
  is_desktop : Bool
  is_console : Bool
  has_systemd : Bool
  desktop_environment : Option Str

/-- The initial `env` dictionary literal. -/
def init_env : Env :=
  { type := ("unknown".toList), is_pi := false, is_desktop := false,
    is_console := false, has_systemd := false, desktop_environment := none }

/-- The Raspberry-Pi check.  The source opens `/proc/cpuinfo` and calls
`f.read()` twice on the same handle; the second read on the exhausted
handle returns the empty string, so the `'Raspberry'` test runs on `""`. -/
def pi_step (cpuinfo : Probe Str) (env : Env) : Env :=
  match cpuinfo with
  | .ok content =>
    if strContains content ("BCM".toList) || strContains [] ("Raspberry".toList) then
      { env with is_pi := true, type := ("raspberry_pi".toList) }
    else env
  | .error _ => env

/-- The desktop-environment check over the two session variables. -/
def desktop_step (ds xdg : Option Str) (env : Env) : Env :=
  match pyOrStr ds xdg with
  | some desktop_env =>
    if desktop_env ≠ [] then
      { env with is_desktop := true,
                 desktop_environment := some (toLowerStr desktop_env),
                 type := if env.type = ("unknown".toList) then ("desktop".toList) else env.type }
    else env
  | none => env

/-- The gaming-console check over `/proc/device-tree/model`. -/
def console_step (model_file : Probe Str) (env : Env) : Env :=
  match model_file with
  | .ok m =>
    let model := toLowerStr m
    if [("rg".toList), ("anbernic".toList), ("powkiddy".toList), ("retroid".toList)].any
        (fun console => strContains model console) then
      { env with is_console := true, type := ("gaming_console".toList) }
    else env
  | .error _ => env

/-- The final `if env['type'] == 'unknown'` default resolution. -/
def resolve_step (env : Env) : Env :=
  if env.type = ("unknown".toList) then
    if env.is_desktop then { env with type := ("desktop".toList) }
    else if env.is_pi then { env with type := ("raspberry_pi".toList) }
    else { env with type := ("minimal_linux".toList) }
  else env

/-- `EnvironmentDetector.detect_environment`, as a function of the
process state it reads. -/
def detect_environment (inp : EnvInputs) : Env :=
  let env := init_env
  let env := pi_step inp.cpuinfo env
  let env := desktop_step inp.desktopSession inp.xdgCurrentDesktop env
  let env := console_step inp.deviceTreeModel env
  let env := { env with has_systemd := inp.systemdPathExists }
  resolve_step env

/-! ## Input-method detection (`EnvironmentDetector.detect_input_methods`) -/

/-- The device-node state read by `detect_input_methods`. -/
structure InputInputs where
  /-- Result of `glob.glob('/dev/input/event*')` (the surrounding `try`
  makes a raised failure recoverable). -/
  eventDevices : Probe (List Str)
  /-- Stdout of `udevadm info --query=property --name=<device>`;
  `.error ()` if the subprocess call raised. -/
  udevProps : Str → Probe Str
  /-- Result of `glob.glob('/dev/input/mouse*')`. -/
  mouseDevices : List Str
  /-- Result of `glob.glob('/dev/input/js*')`. -/
  joystickDevices : List Str

/-- The `methods` dictionary built by `detect_input_methods`. -/
structure InputMethods where
  keyboard : Bool
  mouse : Bool
  touchscreen : Bool
  gamepad : Bool
  joystick_devices : List Str

/-- The touchscreen probe loop: query each event device's udev property
database, stopping at the first touchscreen flag; per-device failures are
swallowed and the loop continues. -/
def touchscreen_probe (devices : Probe (List Str)) (props : Str → Probe Str) : Bool :=
  match devices with
  | .ok ds =>
    ds.any (fun d =>
      match props d with
      | .ok out => strContains out ("ID_INPUT_TOUCHSCREEN=1".toList)
      | .error _ => false)
  | .error _ => false

/-- `EnvironmentDetector.detect_input_methods`. -/
def detect_input_methods (inp : InputInputs) : InputMethods :=
  { keyboard := true
    touchscreen := touchscreen_probe inp.eventDevices inp.udevProps
    mouse := decide (inp.mouseDevices.length > 0)
    gamepad := decide (inp.joystickDevices.length > 0)
    joystick_devices := inp.joystickDevices }

/-! ## Screen detection (`EnvironmentDetector.detect_screen_info`) -/

/-- The external display queries made by `detect_screen_info`. -/
structure ScreenInputs where
  /-- Stdout of `xrandr`; `.error ()` if the subprocess call raised. -/
  xrandr : Probe Str
  /-- The tkinter screen size (`winfo_screenwidth`/`winfo_screenheight`);
  `.error ()` if creating the probe window raised. -/
  tkScreen : Probe (Nat × Nat)

/-- The `info` dictionary built by `detect_screen_info`. -/
structure ScreenInfo where
  width : Int
  height : Int
  dpi : Int
  is_small_screen : Bool
  is_touch_optimized : Bool

/-- Scan the whitespace-split parts of the connected-output line for a
`widthxheight+x+y` token, as the source's inner `for part in parts` loop
does: a token whose pre-`+` prefix contains `x` is fed to `int`; a
conversion failure raises `ValueError` (`.error ()`); tokens that do not
qualify are skipped silently, and exhausting the parts leaves the
defaults (`.ok none`). -/
def parse_parts : List Str → Except Unit (Option (Int × Int))
  | [] => Except.ok none
  | part :: rest =>
    if strContains part ("x".toList) && strContains part ("+".toList) then
      let resolution := (splitOnChar '+' part).headD []
      if strContains resolution ("x".toList) then
        match (splitOnChar 'x' resolution).map pyInt? with
        | [some w, some h] => Except.ok (some (w, h))
        | _ => Except.error ()
      else parse_parts rest
    else parse_parts rest

/-- The xrandr-output scan: find the first line mentioning a connected
output and scan its parts.  `.ok none` means the scan fell through
without assigning a size (and without raising). -/
def xrandr_parse (stdout : Str) : Except Unit (Option (Int × Int)) :=
  match (splitOnChar '\n' stdout).find?
      (fun line => strContains line (" connected primary".toList) ||
                   strContains line (" connected ".toList)) with
  | some line => parse_parts (pySplitWs line)
  | none => Except.ok none

/-- The tkinter fallback branch of `detect_screen_info`: the toolkit's
reported size, or the 1024×768 defaults when it too raises. -/
def tk_fallback : Probe (Nat × Nat) → Int × Int
  | .ok (w, h) => ((w : Int), (h : Int))
  | .error _ => (1024, 768)

/-- The width/height computed by `detect_screen_info`: the xrandr scan's
result when it assigns one; the untouched defaults when the scan falls
through silently; the tkinter fallback when the xrandr call or the
conversion raises. -/
def screen_size (sinp : ScreenInputs) : Int × Int :=
  match sinp.xrandr with
  | .ok stdout =>
    match xrandr_parse stdout with
    | .ok (some wh) => wh
    | .ok none => (1024, 768)
    | .error _ => tk_fallback sinp.tkScreen
  | .error _ => tk_fallback sinp.tkScreen

/-- `EnvironmentDetector.detect_screen_info`: the size plus the derived
`is_small_screen` / `is_touch_optimized` flags (which also read the
already-computed `input_methods` and `environment`). -/
def detect_screen_info (sinp : ScreenInputs) (input_methods : InputMethods)
    (environment : Env) : ScreenInfo :=
  let wh := screen_size sinp
  let is_small : Bool := decide (wh.1 ≤ 800) || decide (wh.2 ≤ 480)
  { width := wh.1, height := wh.2, dpi := 96,
    is_small_screen := is_small,
    is_touch_optimized := (input_methods.touchscreen && is_small) || environment.is_pi }

/-! ## The detector bundle (`EnvironmentDetector.__init__`) -/

/-- All process state read by the detector's three steps. -/
structure DetectorInputs where
  env : EnvInputs
  inputs : InputInputs
  screen : ScreenInputs

/-- The detector's three cached results. -/
structure EnvironmentDetector where
  environment : Env
  input_methods : InputMethods
  screen_info : ScreenInfo

/-- `EnvironmentDetector.__init__`: run the three detection steps in
order (screen detection reads the first two results). -/
def EnvironmentDetector.detect (inp : DetectorInputs) : EnvironmentDetector :=
  let environment := detect_environment inp.env
  let input_methods := detect_input_methods inp.inputs
  let screen_info := detect_screen_info inp.screen input_methods environment
  ⟨environment, input_methods, screen_info⟩

/-! ## Window-mode selection (`AdaptiveHamsterGUI.setup_window`) -/

/-- The four values `setup_window` assigns to `self.window_mode`. -/
inductive WindowMode where
  | fullscreen_console
  | touchscreen
  | desktop
  | minimal
deriving DecidableEq

/-- The mode-selection chain of `setup_window`, keyed on the detected
environment type and the touch-optimization flag. -/
def setup_window_mode (env : Env) (screen : ScreenInfo) : WindowMode :=
  if env.type = ("gaming_console".toList) then WindowMode.fullscreen_console
  else if env.type = ("raspberry_pi".toList) ∧ screen.is_touch_optimized = true then
    WindowMode.touchscreen
  else if env.type = ("desktop".toList) then WindowMode.desktop
  else WindowMode.minimal

/-! ## Font scaling (`AdaptiveHamsterGUI.get_font_size`) -/

/-- `get_font_size`: larger fonts for touch, slightly larger for small
screens, the base size otherwise. -/
def get_font_size (screen : ScreenInfo) (base_size : Int) : Int :=
  if screen.is_touch_optimized then base_size + 4
  else if screen.is_small_screen then base_size + 2
  else base_size

/-! ## Preference file (`AdaptiveHamsterGUI.load_config` / `save_config`) -/

/-- JSON values, as produced by `json.load`. -/
inductive JValue where
  | null : JValue
  | bool : Bool → JValue
  | num : Int → JValue
  | str : Str → JValue
  | arr : List JValue → JValue
  | obj : List (Str × JValue) → JValue

/-- A top-level config object: insertion-ordered key/value pairs. -/
abbrev ConfigObj := List (Str × JValue)

/-- The `'station'` section of `default_config`. -/
def default_station : JValue :=
  JValue.obj
    [(("callsign".toList), JValue.str ("N0CALL".toList)),
     (("grid_square".toList), JValue.str ("FN42xx".toList)),
     (("qth".toList), JValue.str ("Home Station".toList)),
     (("operator".toList), JValue.str ("Ham Operator".toList))]

/-- The `'ui'` section of `default_config`. -/
def default_ui : JValue :=
  JValue.obj
    [(("theme".toList), JValue.str ("auto".toList)),
     (("font_size".toList), JValue.str ("auto".toList)),
     (("touch_mode".toList), JValue.str ("auto".toList))]

/-- The `default_config` dictionary literal of `load_config`. -/
def default_config : ConfigObj :=
  [(("station".toList), default_station), (("ui".toList), default_ui)]

/-- Python's `key in config` dict-membership test. -/
def jhasKey (cfg : ConfigObj) (k : Str) : Bool :=
  cfg.any (fun p => p.1 == k)

/-- Python's `config[key]` dict lookup (keys are unique, so the first
match is the binding). -/
def jget (cfg : ConfigObj) (k : Str) : Option JValue :=
  (cfg.find? (fun p => p.1 == k)).map (fun p => p.2)

/-- The merge loop of `load_config`: `for key in default_config: if key
not in config: config[key] = default_config[key]` — assigning a fresh key
appends it in insertion order. -/
def merge_defaults (cfg : ConfigObj) : ConfigObj :=
  default_config.foldl (fun c kv => if jhasKey c kv.1 then c else c ++ [kv]) cfg

/-- The result of `load_config`: the in-memory config, plus the content
written to disk when the file had to be created. -/
structure LoadResult where
  config : ConfigObj
  written : Option ConfigObj

/-- `AdaptiveHamsterGUI.load_config` as a function of the preference
file's state: `none` models a missing file. -/
def load_config (file : Option ConfigObj) : LoadResult :=
  match file with
  | some cfg => { config := merge_defaults cfg, written := none }
  | none => { config := default_config, written := some default_config }

/-! ## Status polling (`check_system_status`, both variants) -/

/-- The external query results consumed by one `update_status` cycle.
Each `Probe` value is `.error ()` when the corresponding subprocess call
raised, `.ok` with the observed stdout / return code otherwise. -/
structure PollInputs where
  /-- Stdout of `systemctl is-active ssh`. -/
  sshActive : Probe Str
  /-- Stdout of `systemctl is-active bluetooth`. -/
  bluetoothActive : Probe Str
  /-- Stdout of `hostname -I`. -/
  hostnameI : Probe Str
  /-- Return code of `which direwolf`. -/
  whichDirewolf : Probe Int
  /-- Return code of `which qsstv`. -/
  whichQsstv : Probe Int

/-- The `status_info` dictionary handed to `update_status_display`. -/
structure StatusSnapshot where
  ssh : Bool
  bluetooth : Bool
  network : Bool
  ip : Option Str
  direwolf : Bool
  qsstv : Bool

/-- The network check of `update_status`, with its own inner
`try/except` that converts a raise into `network=False, ip=None`. -/
def network_check (hostnameI : Probe Str) : Bool × Option Str :=
  match hostnameI with
  | .ok out =>
    let t := pyStrip out
    if t ≠ [] then
      let ip := (pySplitWs t).headD []
      (decide (ip ≠ []), some ip)
    else (false, none)
  | .error _ => (false, none)

/-- One `update_status` cycle of `AdaptiveHamsterGUI.check_system_status`.
The whole body sits in a single outer `try`, so a raise anywhere except
inside the network check's inner `try` aborts the cycle: the result is
`none` (no snapshot published).  A published snapshot is `some`. -/
def check_system_status (inp : PollInputs) : Option StatusSnapshot :=
  match inp.sshActive with
  | .error _ => none
  | .ok sshOut =>
    match inp.bluetoothActive with
    | .error _ => none
    | .ok btOut =>
      let nw := network_check inp.hostnameI
      match inp.whichDirewolf with
      | .error _ => none
      | .ok dwRc =>
        match inp.whichQsstv with
        | .error _ => none
        | .ok qsRc =>
          some { ssh := pyStrip sshOut == ("active".toList),
                 bluetooth := pyStrip btOut == ("active".toList),
                 network := nw.1,
                 ip := nw.2,
                 direwolf := decide (dwRc = 0),
                 qsstv := decide (qsRc = 0) }

/-! ## Helper lemmas: a normal form for `detect_environment` -/

/-- Whether the Raspberry-Pi substring test of `detect_environment` fires. -/
def pi_signal : Probe Str → Bool
  | .ok content => strContains content ("BCM".toList) || strContains [] ("Raspberry".toList)
  | .error _ => false

/-- Whether the desktop-environment variable test fires. -/
def desktop_signal (ds xdg : Option Str) : Bool :=
  match pyOrStr ds xdg with
  | some s => decide (s ≠ [])
  | none => false

/-- Whether the gaming-console model test fires. -/
def console_signal : Probe Str → Bool
  | .ok m => [("rg".toList), ("anbernic".toList), ("powkiddy".toList), ("retroid".toList)].any
      (fun c => strContains (toLowerStr m) c)
  | .error _ => false

lemma pi_step_eq (c : Probe Str) (env : Env) :
    pi_step c env =
      if pi_signal c then { env with is_pi := true, type := ("raspberry_pi".toList) } else env := by
  cases c <;> simp only [pi_step, pi_signal] <;> split_ifs <;> simp_all

lemma desktop_step_eq (ds xdg : Option Str) (env : Env) :
    desktop_step ds xdg env =
      if desktop_signal ds xdg then
        { env with is_desktop := true,
                   desktop_environment := (pyOrStr ds xdg).map toLowerStr,
                   type := if env.type = ("unknown".toList) then ("desktop".toList) else env.type }
      else env := by
  rcases h : pyOrStr ds xdg with _ | s <;>
    simp only [desktop_step, desktop_signal, h, Option.map] <;> split_ifs <;> simp_all

lemma console_step_eq (c : Probe Str) (env : Env) :
    console_step c env =
      if console_signal c then { env with is_console := true, type := ("gaming_console".toList) }
      else env := by
  cases c <;> simp only [console_step, console_signal] <;> split_ifs <;> simp_all

/-- Normal form of `detect_environment`: each boolean field records its
own signal, and `type` resolves with the console signal strongest, then
the Pi signal, then the desktop signal, else `minimal_linux`. -/
lemma detect_environment_eq (inp : EnvInputs) :
    detect_environment inp =
      { type := if console_signal inp.deviceTreeModel then ("gaming_console".toList)
                else if pi_signal inp.cpuinfo then ("raspberry_pi".toList)
                else if desktop_signal inp.desktopSession inp.xdgCurrentDesktop then ("desktop".toList)
                else ("minimal_linux".toList),
        is_pi := pi_signal inp.cpuinfo,
        is_desktop := desktop_signal inp.desktopSession inp.xdgCurrentDesktop,
        is_console := console_signal inp.deviceTreeModel,
        has_systemd := inp.systemdPathExists,
        desktop_environment :=
          if desktop_signal inp.desktopSession inp.xdgCurrentDesktop then
            (pyOrStr inp.desktopSession inp.xdgCurrentDesktop).map toLowerStr
          else none } := by
  rcases inp with ⟨cpu, ds, xdg, model, sysd⟩
  simp only [detect_environment, pi_step_eq, desktop_step_eq, console_step_eq]
  cases h1 : pi_signal cpu <;> cases h2 : desktop_signal ds xdg <;>
    cases h3 : console_signal model <;>
    simp [h1, h2, h3, resolve_step, init_env]

/-! ## Claim theorems -/

/-- C1: the presentation mode selected at window setup follows the fixed
priority — gaming-console type yields `fullscreen_console`; Raspberry-Pi
type with a touch-optimized display yields `touchscreen`; desktop type
yields `desktop`; any other descriptor yields `minimal`.  In particular,
every detector run whose descriptor has the handheld signal set
(`is_console = true`) selects `fullscreen_console`, regardless of the
single-board-computer signal. -/
theorem setup_window_mode_priority :
    (∀ (env : Env) (screen : ScreenInfo),
      (env.type = ("gaming_console".toList) →
        setup_window_mode env screen = WindowMode.fullscreen_console) ∧
      (env.type = ("raspberry_pi".toList) → screen.is_touch_optimized = true →
        setup_window_mode env screen = WindowMode.touchscreen) ∧
      (env.type = ("desktop".toList) → setup_window_mode env screen = WindowMode.desktop) ∧
      (env.type ≠ ("gaming_console".toList) →
        ¬(env.type = ("raspberry_pi".toList) ∧ screen.is_touch_optimized = true) →
        env.type ≠ ("desktop".toList) →
        setup_window_mode env screen = WindowMode.minimal)) ∧
    (∀ inp : DetectorInputs,
      (EnvironmentDetector.detect inp).environment.is_console = true →
      setup_window_mode (EnvironmentDetector.detect inp).environment
        (EnvironmentDetector.detect inp).screen_info = WindowMode.fullscreen_console) := by
  have base : ∀ (env : Env) (screen : ScreenInfo),
      (env.type = ("gaming_console".toList) →
        setup_window_mode env screen = WindowMode.fullscreen_console) ∧
      (env.type = ("raspberry_pi".toList) → screen.is_touch_optimized = true →
        setup_window_mode env screen = WindowMode.touchscreen) ∧
      (env.type = ("desktop".toList) → setup_window_mode env screen = WindowMode.desktop) ∧
      (env.type ≠ ("gaming_console".toList) →
        ¬(env.type = ("raspberry_pi".toList) ∧ screen.is_touch_optimized = true) →
        env.type ≠ ("desktop".toList) →
        setup_window_mode env screen = WindowMode.minimal) := by
    intro env screen
    refine ⟨?_, ?_, ?_, ?_⟩
    · intro h
      simp only [setup_window_mode]
      rw [if_pos h]
    · intro h ht
      simp only [setup_window_mode]
      rw [if_neg (by rw [h]; decide), if_pos ⟨h, ht⟩]
    · intro h
      simp only [setup_window_mode]
      rw [if_neg (by rw [h]; decide),
          if_neg (fun hc => absurd (h ▸ hc.1) (by decide)), if_pos h]
    · intro h1 h2 h3
      simp only [setup_window_mode, if_neg h1, if_neg h2, if_neg h3]
  refine ⟨base, ?_⟩
  intro inp h
  have he : (EnvironmentDetector.detect inp).environment = detect_environment inp.env := rfl
  rw [he] at h ⊢
  rw [detect_environment_eq] at h ⊢
  simp only at h
  exact (base _ _).1 (by simp [h])

/-- C1 witness: a device whose cpuinfo carries the Pi marker and whose
device-tree model carries a handheld marker (both signals fire) still
gets `fullscreen_console`. -/
theorem setup_window_mode_priority_witness :
    (EnvironmentDetector.detect
      { env := { cpuinfo := .ok ("BCM2835".toList), desktopSession := none,
                 xdgCurrentDesktop := none,
                 deviceTreeModel := .ok ("Anbernic RG353P".toList), systemdPathExists := false },
        inputs := { eventDevices := .error (), udevProps := fun _ => .error (),
                    mouseDevices := [], joystickDevices := [] },
        screen := { xrandr := .error (), tkScreen := .ok (640, 480) } }).environment.is_pi
      = true ∧
    setup_window_mode
      (EnvironmentDetector.detect
        { env := { cpuinfo := .ok ("BCM2835".toList), desktopSession := none,
                   xdgCurrentDesktop := none,
                   deviceTreeModel := .ok ("Anbernic RG353P".toList), systemdPathExists := false },
          inputs := { eventDevices := .error (), udevProps := fun _ => .error (),
                      mouseDevices := [], joystickDevices := [] },
          screen := { xrandr := .error (), tkScreen := .ok (640, 480) } }).environment
      (EnvironmentDetector.detect
        { env := { cpuinfo := .ok ("BCM2835".toList), desktopSession := none,
                   xdgCurrentDesktop := none,
                   deviceTreeModel := .ok ("Anbernic RG353P".toList), systemdPathExists := false },
          inputs := { eventDevices := .error (), udevProps := fun _ => .error (),
                      mouseDevices := [], joystickDevices := [] },
          screen := { xrandr := .error (), tkScreen := .ok (640, 480) } }).screen_info
      = WindowMode.fullscreen_console := by
  refine ⟨rfl, ?_⟩
  exact setup_window_mode_priority.2 _ rfl

/-- C2 counterexample: with the Pi marker in `/proc/cpuinfo` and
`DESKTOP_SESSION=plasma` both present, the machine class is
`raspberry_pi`, not `desktop` — desktop-environment presence does NOT
take precedence over single-board-computer detection. -/
theorem machineClass_desktop_counterexample :
    (detect_environment
      { cpuinfo := .ok ("processor : BCM2711".toList),
        desktopSession := some ("plasma".toList), xdgCurrentDesktop := none,
        deviceTreeModel := .error (), systemdPathExists := true }).type =
      ("raspberry_pi".toList) ∧
    (detect_environment
      { cpuinfo := .ok ("processor : BCM2711".toList),
        desktopSession := some ("plasma".toList), xdgCurrentDesktop := none,
        deviceTreeModel := .error (), systemdPathExists := true }).type ≠
      ("desktop".toList) := by decide

/-- C2 amended: when several machine-class signals fire, handheld
(console) detection takes precedence over single-board-computer
detection, which takes precedence over desktop-environment presence;
when no signal fires the machine is classified `minimal_linux`. -/
theorem machineClass_precedence (inp : EnvInputs) :
    ((detect_environment inp).is_console = true →
      (detect_environment inp).type = ("gaming_console".toList)) ∧
    ((detect_environment inp).is_console = false → (detect_environment inp).is_pi = true →
      (detect_environment inp).type = ("raspberry_pi".toList)) ∧
    ((detect_environment inp).is_console = false → (detect_environment inp).is_pi = false →
      (detect_environment inp).is_desktop = true →
      (detect_environment inp).type = ("desktop".toList)) ∧
    ((detect_environment inp).is_console = false → (detect_environment inp).is_pi = false →
      (detect_environment inp).is_desktop = false →
      (detect_environment inp).type = ("minimal_linux".toList)) := by
  rw [detect_environment_eq]
  refine ⟨?_, ?_, ?_, ?_⟩
  · intro h1; simp only at h1 ⊢; simp [h1]
  · intro h1 h2; simp only at h1 h2 ⊢; simp [h1, h2]
  · intro h1 h2 h3; simp only at h1 h2 h3 ⊢; simp [h1, h2, h3]
  · intro h1 h2 h3; simp only at h1 h2 h3 ⊢; simp [h1, h2, h3]

/-- C2 amended witness: with every signal silent, the class resolves to
`minimal_linux`. -/
theorem machineClass_precedence_witness :
    (detect_environment
      { cpuinfo := .error (), desktopSession := none, xdgCurrentDesktop := none,
        deviceTreeModel := .error (), systemdPathExists := false }).type =
      ("minimal_linux".toList) :=
  (machineClass_precedence _).2.2.2 rfl rfl rfl

/-- C10: the Raspberry-Pi check reads the cpuinfo handle twice, so the
second substring test runs on an empty string: `is_pi` is true exactly
when `BCM` occurs in the file content, and content containing
`Raspberry` but not `BCM` leaves `is_pi` false. -/
theorem pi_check_exhausted_read :
    (∀ (inp : EnvInputs) (content : Str), inp.cpuinfo = .ok content →
      (detect_environment inp).is_pi = strContains content ("BCM".toList)) ∧
    (∀ (inp : EnvInputs) (content : Str), inp.cpuinfo = .ok content →
      strContains content ("Raspberry".toList) = true →
      strContains content ("BCM".toList) = false →
      (detect_environment inp).is_pi = false) := by
  have base : ∀ (inp : EnvInputs) (content : Str), inp.cpuinfo = .ok content →
      (detect_environment inp).is_pi = strContains content ("BCM".toList) := by
    intro inp content h
    rw [detect_environment_eq]
    simp only
    rw [h]
    simp only [pi_signal]
    rw [show strContains [] ("Raspberry".toList) = false from rfl, Bool.or_false]
  refine ⟨base, ?_⟩
  intro inp content h _ hb
  rw [base inp content h, hb]

/-- C10 witness: a cpuinfo that names `Raspberry` but carries no `BCM`
marker does not set `is_pi`. -/
theorem pi_check_exhausted_read_witness :
    (detect_environment
      { cpuinfo := .ok ("Raspberry Pi 4 Model B".toList), desktopSession := none,
        xdgCurrentDesktop := none, deviceTreeModel := .error (),
        systemdPathExists := false }).is_pi = false :=
  pi_check_exhausted_read.2 _ (("Raspberry Pi 4 Model B".toList)) rfl (by decide) (by decide)

/-- The detector input in which every probe fails: both file reads raise,
no session variable is set, the systemd marker is absent, the event-device
glob and every udev query raise, no mouse or joystick nodes exist, and
both display queries raise. -/
def all_failing_inputs : DetectorInputs :=
  { env := { cpuinfo := .error (), desktopSession := none, xdgCurrentDesktop := none,
             deviceTreeModel := .error (), systemdPathExists := false },
    inputs := { eventDevices := .error (), udevProps := fun _ => .error (),
                mouseDevices := [], joystickDevices := [] },
    screen := { xrandr := .error (), tkScreen := .error () } }

/-- The all-default descriptor: `minimal_linux` class, keyboard only,
1024×768 display, no small-screen or touch optimization. -/
def default_descriptor : EnvironmentDetector :=
  { environment := { type := ("minimal_linux".toList), is_pi := false, is_desktop := false,
                     is_console := false, has_systemd := false, desktop_environment := none },
    input_methods := { keyboard := true, mouse := false, touchscreen := false,
                       gamepad := false, joystick_devices := [] },
    screen_info := { width := 1024, height := 768, dpi := 96,
                     is_small_screen := false, is_touch_optimized := false } }

/-- C4: detection is fault-tolerant — a failing cpuinfo read leaves
`is_pi` false, a failing device-tree read leaves `is_console` false, a
failing event-device enumeration leaves `touchscreen` false, failing
display queries leave the 1024×768 default, and with every probe failing
the detector returns the all-default descriptor.  (Every failure
combination is a total input of `EnvironmentDetector.detect`, so
detection never raises.) -/
theorem detection_fault_tolerance :
    (∀ inp : DetectorInputs, inp.env.cpuinfo = .error () →
      (EnvironmentDetector.detect inp).environment.is_pi = false) ∧
    (∀ inp : DetectorInputs, inp.env.deviceTreeModel = .error () →
      (EnvironmentDetector.detect inp).environment.is_console = false) ∧
    (∀ inp : DetectorInputs, inp.inputs.eventDevices = .error () →
      (EnvironmentDetector.detect inp).input_methods.touchscreen = false) ∧
    (∀ inp : DetectorInputs, inp.screen.xrandr = .error () → inp.screen.tkScreen = .error () →
      (EnvironmentDetector.detect inp).screen_info.width = 1024 ∧
      (EnvironmentDetector.detect inp).screen_info.height = 768) ∧
    (EnvironmentDetector.detect all_failing_inputs = default_descriptor) := by
  refine ⟨?_, ?_, ?_, ?_, rfl⟩
  · intro inp h
    have he : (EnvironmentDetector.detect inp).environment = detect_environment inp.env := rfl
    rw [he, detect_environment_eq]
    simp only
    rw [h]
    rfl
  · intro inp h
    have he : (EnvironmentDetector.detect inp).environment = detect_environment inp.env := rfl
    rw [he, detect_environment_eq]
    simp only
    rw [h]
    rfl
  · intro inp h
    show touchscreen_probe inp.inputs.eventDevices inp.inputs.udevProps = false
    rw [h]
    rfl
  · intro inp h1 h2
    constructor
    · show (screen_size inp.screen).1 = 1024
      simp [screen_size, h1, h2, tk_fallback]
    · show (screen_size inp.screen).2 = 768
      simp [screen_size, h1, h2, tk_fallback]

/-- C4 witness: the componentwise guarantees evaluated at the all-failing
input. -/
theorem detection_fault_tolerance_witness :
    (EnvironmentDetector.detect all_failing_inputs).environment.is_pi = false ∧
    (EnvironmentDetector.detect all_failing_inputs).environment.is_console = false ∧
    (EnvironmentDetector.detect all_failing_inputs).input_methods.touchscreen = false ∧
    (EnvironmentDetector.detect all_failing_inputs).screen_info.width = 1024 ∧
    (EnvironmentDetector.detect all_failing_inputs).screen_info.height = 768 :=
  ⟨detection_fault_tolerance.1 all_failing_inputs rfl,
   detection_fault_tolerance.2.1 all_failing_inputs rfl,
   detection_fault_tolerance.2.2.1 all_failing_inputs rfl,
   (detection_fault_tolerance.2.2.2.1 all_failing_inputs rfl rfl).1,
   (detection_fault_tolerance.2.2.2.1 all_failing_inputs rfl rfl).2⟩

/-- C3 counterexample: a cycle in which only the ssh query raises (every
other query succeeds) publishes no snapshot at all — the claim that the
remaining checks still run and a snapshot is still published fails. -/
theorem check_status_abort_counterexample :
    check_system_status
      { sshActive := .error (), bluetoothActive := .ok ("active".toList),
        hostnameI := .ok ("192.168.1.7 ".toList),
        whichDirewolf := .ok 0, whichQsstv := .ok 0 } = none := rfl

/-- C3 amended: only the IP-lookup query's raise is tolerated per-entry —
when exactly the hostname query raises, a snapshot is still published
with `network=false`, `ip=none` and definite booleans for the other four
services; a raise in any other query aborts the cycle and publishes no
snapshot. -/
theorem check_status_partial_tolerance :
    (∀ (s b : Str) (d q : Int),
      check_system_status
        { sshActive := .ok s, bluetoothActive := .ok b, hostnameI := .error (),
          whichDirewolf := .ok d, whichQsstv := .ok q } =
        some { ssh := pyStrip s == ("active".toList),
               bluetooth := pyStrip b == ("active".toList),
               network := false, ip := none,
               direwolf := decide (d = 0), qsstv := decide (q = 0) }) ∧
    (∀ inp : PollInputs, inp.sshActive = .error () → check_system_status inp = none) ∧
    (∀ inp : PollInputs, inp.bluetoothActive = .error () → check_system_status inp = none) ∧
    (∀ inp : PollInputs, inp.whichDirewolf = .error () → check_system_status inp = none) ∧
    (∀ inp : PollInputs, inp.whichQsstv = .error () → check_system_status inp = none) := by
  refine ⟨fun s b d q => rfl, ?_, ?_, ?_, ?_⟩
  · intro inp h
    rcases inp with ⟨ssh, bt, host, dw, qs⟩
    simp only at h
    subst h
    rfl
  · intro inp h
    rcases inp with ⟨ssh, bt, host, dw, qs⟩
    simp only at h
    subst h
    cases ssh <;> rfl
  · intro inp h
    rcases inp with ⟨ssh, bt, host, dw, qs⟩
    simp only at h
    subst h
    cases ssh <;> cases bt <;> rfl
  · intro inp h
    rcases inp with ⟨ssh, bt, host, dw, qs⟩
    simp only at h
    subst h
    cases ssh <;> cases bt <;> cases dw <;> rfl

/-- C3 amended witness: with the hostname query raising and the other
four succeeding, the published snapshot carries the four definite
booleans. -/
theorem check_status_partial_tolerance_witness :
    check_system_status
      { sshActive := .ok ("active\n".toList), bluetoothActive := .ok ("inactive".toList),
        hostnameI := .error (), whichDirewolf := .ok 0, whichQsstv := .ok 1 } =
      some { ssh := true, bluetooth := false, network := false, ip := none,
             direwolf := true, qsstv := false } := by
  rw [check_status_partial_tolerance.1 (("active\n".toList)) (("inactive".toList)) 0 1]
  rfl

/-- C6 counterexample: when the xrandr call succeeds but its output
carries no geometry token on the connected-output line, the size stays at
the 1024×768 defaults even though the toolkit reports 1920×1080 — the
toolkit fallback is not consulted for a silent parse miss. -/
theorem screen_fallback_counterexample :
    screen_size { xrandr := .ok ("HDMI-1 connected primary (normal left inverted)".toList),
                  tkScreen := .ok (1920, 1080) } = (1024, 768) ∧
    screen_size { xrandr := .ok ("HDMI-1 connected primary (normal left inverted)".toList),
                  tkScreen := .ok (1920, 1080) } ≠ (1920, 1080) := by decide

/-- C6 amended: the display size comes from the xrandr scan when it
assigns one; stays at the 1024×768 defaults when the scan falls through
without a match; falls back to the toolkit exactly when the xrandr call
or the numeric conversion raises; and is 1024×768 when the toolkit probe
fails as well.  `detect_screen_info` publishes that size. -/
theorem screen_fallback_stages :
    (∀ (s : Str) (tk : Probe (Nat × Nat)) (wh : Int × Int), xrandr_parse s = .ok (some wh) →
      screen_size { xrandr := .ok s, tkScreen := tk } = wh) ∧
    (∀ (s : Str) (tk : Probe (Nat × Nat)), xrandr_parse s = .ok none →
      screen_size { xrandr := .ok s, tkScreen := tk } = (1024, 768)) ∧
    (∀ (s : Str) (tk : Probe (Nat × Nat)), xrandr_parse s = .error () →
      screen_size { xrandr := .ok s, tkScreen := tk } = tk_fallback tk) ∧
    (∀ tk : Probe (Nat × Nat),
      screen_size { xrandr := .error (), tkScreen := tk } = tk_fallback tk) ∧
    (∀ w h : Nat, tk_fallback (.ok (w, h)) = ((w : Int), (h : Int))) ∧
    (tk_fallback (.error ()) = (1024, 768)) ∧
    (∀ (sinp : ScreenInputs) (im : InputMethods) (env : Env),
      (detect_screen_info sinp im env).width = (screen_size sinp).1 ∧
      (detect_screen_info sinp im env).height = (screen_size sinp).2) := by
  refine ⟨?_, ?_, ?_, fun tk => rfl, fun w h => rfl, rfl, fun sinp im env => ⟨rfl, rfl⟩⟩
  · intro s tk wh h
    simp [screen_size, h]
  · intro s tk h
    simp [screen_size, h]
  · intro s tk h
    simp [screen_size, h]

/-- C6 amended witness: a realistic xrandr output line yields its parsed
1920×1080 geometry. -/
theorem screen_fallback_stages_witness :
    screen_size
      { xrandr := .ok (("Screen 0: minimum 320 x 200\nHDMI-1 connected primary 1920x1080+0+0 (normal left) 509mm x 286mm".toList)),
        tkScreen := .error () } = (1920, 1080) :=
  screen_fallback_stages.1 _ _ (1920, 1080) rfl

/-- C7: `is_touch_optimized` equals (touchscreen AND small screen) OR
Pi — for every detected size and every combination of the touchscreen
and single-board-computer booleans (the two closed clauses walk all four
combinations on a small and a large screen). -/
theorem touch_optimized_formula :
    (∀ (sinp : ScreenInputs) (im : InputMethods) (env : Env),
      (detect_screen_info sinp im env).is_touch_optimized =
        ((im.touchscreen && (detect_screen_info sinp im env).is_small_screen) || env.is_pi)) ∧
    (∀ t p : Bool,
      (detect_screen_info { xrandr := .error (), tkScreen := .ok (640, 480) }
        { keyboard := true, mouse := false, touchscreen := t, gamepad := false,
          joystick_devices := [] }
        { init_env with is_pi := p }).is_touch_optimized = (t || p)) ∧
    (∀ t p : Bool,
      (detect_screen_info { xrandr := .error (), tkScreen := .ok (1280, 800) }
        { keyboard := true, mouse := false, touchscreen := t, gamepad := false,
          joystick_devices := [] }
        { init_env with is_pi := p }).is_touch_optimized = p) := by
  refine ⟨fun _ _ _ => rfl, ?_, ?_⟩ <;> decide

/-- C8: `is_small_screen` holds iff width ≤ 800 or height ≤ 480, with the
claim's boundary sizes: 800×480 small, 800×481 small, 801×481 not. -/
theorem small_screen_formula :
    (∀ (sinp : ScreenInputs) (im : InputMethods) (env : Env),
      (detect_screen_info sinp im env).is_small_screen =
        (decide ((detect_screen_info sinp im env).width ≤ 800) ||
         decide ((detect_screen_info sinp im env).height ≤ 480))) ∧
    ((detect_screen_info { xrandr := .error (), tkScreen := .ok (800, 480) }
        { keyboard := true, mouse := false, touchscreen := false, gamepad := false,
          joystick_devices := [] } init_env).is_small_screen = true) ∧
    ((detect_screen_info { xrandr := .error (), tkScreen := .ok (800, 481) }
        { keyboard := true, mouse := false, touchscreen := false, gamepad := false,
          joystick_devices := [] } init_env).is_small_screen = true) ∧
    ((detect_screen_info { xrandr := .error (), tkScreen := .ok (801, 481) }
        { keyboard := true, mouse := false, touchscreen := false, gamepad := false,
          joystick_devices := [] } init_env).is_small_screen = false) :=
  ⟨fun _ _ _ => rfl, by decide, by decide, by decide⟩

/-- C9: the derived font size is base+4 under touch optimization, else
base+2 on a small screen, else the base size, for every detector run and
every base size. -/
theorem font_scale_formula (inp : DetectorInputs) (base_size : Int) :
    get_font_size (EnvironmentDetector.detect inp).screen_info base_size =
      (if (EnvironmentDetector.detect inp).screen_info.is_touch_optimized then base_size + 4
       else if (EnvironmentDetector.detect inp).screen_info.is_small_screen then base_size + 2
       else base_size) := rfl

/-! ## Helper lemmas for the preference-file merge -/

instance : Inhabited JValue := ⟨JValue.null⟩

lemma jhasKey_append (c e : ConfigObj) (k : Str) :
    jhasKey (c ++ e) k = (jhasKey c k || jhasKey e k) := by
  simp [jhasKey, List.any_append]

lemma jhasKey_cons (p : Str × JValue) (l : ConfigObj) (k : Str) :
    jhasKey (p :: l) k = ((p.1 == k) || jhasKey l k) := by
  simp [jhasKey]

lemma jget_cons (p : Str × JValue) (l : ConfigObj) (k : Str) :
    jget (p :: l) k = if (p.1 == k) = true then some p.2 else jget l k := by
  by_cases h : (p.1 == k) = true
  · simp [jget, List.find?_cons_of_pos, h]
  · have hb : (p.1 == k) = false := by simpa using h
    simp [jget, List.find?_cons_of_neg, hb, h]

lemma jget_append (c e : ConfigObj) (k : Str) :
    jget (c ++ e) k = if jhasKey c k then jget c k else jget e k := by
  induction c with
  | nil => simp [jget, jhasKey]
  | cons p rest ih =>
    by_cases h : (p.1 == k) = true
    · simp [jget_cons, jhasKey_cons, h]
    · have hb : (p.1 == k) = false := by simpa using h
      simp [jget_cons, jhasKey_cons, hb, ih]

/-- The merge loop appends the station default exactly when the station
key is absent, then the UI default exactly when the UI key is absent. -/
lemma merge_defaults_eq (cfg : ConfigObj) :
    merge_defaults cfg =
      (cfg ++ (if jhasKey cfg ("station".toList) then []
               else [(("station".toList), default_station)]))
        ++ (if jhasKey cfg ("ui".toList) then [] else [(("ui".toList), default_ui)]) := by
  simp only [merge_defaults, default_config, List.foldl]
  by_cases h1 : jhasKey cfg ("station".toList) = true
  · by_cases h2 : jhasKey cfg ("ui".toList) = true
    · simp_all
    · have h2f : jhasKey cfg ("ui".toList) = false := by simpa using h2
      simp_all
  · have h1f : jhasKey cfg ("station".toList) = false := by simpa using h1
    by_cases h2 : jhasKey cfg ("ui".toList) = true
    · simp_all [jhasKey_append]
    · have h2f : jhasKey cfg ("ui".toList) = false := by simpa using h2
      simp_all [jhasKey_append]
      decide

/-- C5: loading the preference file merges defaults for exactly the
absent top-level sections — a missing file is created with full
defaults; a file holding only the station section loads as that station
section plus the default UI section; present keys keep their file
values; absent default keys get the default values; and the merge is
idempotent, so saving and reloading reproduces the same structure. -/
theorem load_config_merge :
    ((load_config none).config = default_config ∧
      (load_config none).written = some default_config) ∧
    (∀ st : JValue, (load_config (some [(("station".toList), st)])).config =
      [(("station".toList), st), (("ui".toList), default_ui)]) ∧
    (∀ (cfg : ConfigObj) (k : Str), jhasKey cfg k = true →
      jget ((load_config (some cfg)).config) k = jget cfg k) ∧
    (∀ (cfg : ConfigObj) (k : Str), jhasKey cfg k = false → jhasKey default_config k = true →
      jget ((load_config (some cfg)).config) k = jget default_config k) ∧
    (∀ cfg : ConfigObj, merge_defaults (merge_defaults cfg) = merge_defaults cfg) := by
  refine ⟨⟨rfl, rfl⟩, ?_, ?_, ?_, ?_⟩
  · intro st
    have hs : jhasKey [(("station".toList), st)] ("station".toList) = true := by
      show ((("station".toList : Str) == ("station".toList)) || false) = true
      decide
    have hu : jhasKey [(("station".toList), st)] ("ui".toList) = false := by
      show ((("station".toList : Str) == ("ui".toList)) || false) = false
      decide
    show merge_defaults [(("station".toList), st)] = _
    rw [merge_defaults_eq, if_pos hs, if_neg (by rw [hu]; decide)]
    rfl
  · intro cfg k h
    show jget (merge_defaults cfg) k = jget cfg k
    rw [merge_defaults_eq]
    simp [jget_append, jhasKey_append, h]
  · intro cfg k habs hdef
    have hk2 : ((("station".toList : Str) == k) = true) ∨ ((("ui".toList : Str) == k) = true) := by
      simpa [jhasKey, default_config, List.any_cons, List.any_nil, Bool.or_false,
        Bool.or_eq_true] using hdef
    rcases hk2 with hk | hk
    · have hk' : (("station".toList : Str)) = k := by simpa using hk
      subst hk'
      show jget (merge_defaults cfg) _ = _
      rw [merge_defaults_eq, if_neg (by rw [habs]; decide)]
      have h1 : jhasKey (cfg ++ [(("station".toList), default_station)])
          ("station".toList) = true := by
        rw [jhasKey_append, habs]
        decide
      rw [jget_append, if_pos h1, jget_append, if_neg (by rw [habs]; decide)]
      rfl
    · have hk' : (("ui".toList : Str)) = k := by simpa using hk
      subst hk'
      show jget (merge_defaults cfg) _ = _
      by_cases hst : jhasKey cfg ("station".toList) = true
      · rw [merge_defaults_eq, if_pos hst, if_neg (by rw [habs]; decide), List.append_nil,
            jget_append, if_neg (by rw [habs]; decide)]
        rfl
      · have hstf : jhasKey cfg ("station".toList) = false := by simpa using hst
        rw [merge_defaults_eq, if_neg (by rw [hstf]; decide), if_neg (by rw [habs]; decide)]
        have h1 : ¬ (jhasKey (cfg ++ [(("station".toList), default_station)])
            ("ui".toList) = true) := by
          rw [jhasKey_append, habs]
          decide
        rw [jget_append, if_neg h1]
        rfl
  · intro cfg
    have hs : jhasKey (merge_defaults cfg) ("station".toList) = true := by
      rw [merge_defaults_eq, jhasKey_append, jhasKey_append]
      by_cases h : jhasKey cfg ("station".toList) = true
      · rw [h]; rfl
      · have hf : jhasKey cfg ("station".toList) = false := by simpa using h
        rw [hf]; rfl
    have hu : jhasKey (merge_defaults cfg) ("ui".toList) = true := by
      rw [merge_defaults_eq, jhasKey_append]
      by_cases h : jhasKey cfg ("ui".toList) = true
      · rw [jhasKey_append, h]; rfl
      · have hf : jhasKey cfg ("ui".toList) = false := by simpa using h
        rw [if_neg h,
            show jhasKey [(("ui".toList), default_ui)] ("ui".toList) = true from rfl,
            Bool.or_true]
    rw [merge_defaults_eq (merge_defaults cfg), if_pos hs, if_pos hu, List.append_nil,
        List.append_nil]

/-- C5 witness: a file whose station section holds a custom callsign
record keeps that value across the merge. -/
theorem load_config_merge_witness :
    jhasKey [(("station".toList), JValue.str ("KD9XYZ".toList))] ("station".toList) = true ∧
    jget ((load_config (some [(("station".toList), JValue.str ("KD9XYZ".toList))])).config)
      ("station".toList) =
      jget [(("station".toList), JValue.str ("KD9XYZ".toList))] ("station".toList) :=
  ⟨by decide, load_config_merge.2.2.1 _ _ (by decide)⟩
